import Mathlib

/-!
Shallow embedding of the OpenProject MCP server's API-client core
(`src/openproject_client.py`) together with the two work-item update tools
of `src/mcp_server.py` that drive the optimistic-locking protocol.

JSON values are modelled by the inductive `Json`; Python dictionaries are
ordered association lists (insertion order), matching CPython semantics.
Python-level dynamic behaviour that the source relies on (truthiness,
`dict.get`, the `in` operator, `str()` conversion, exceptions raised by
attribute access on non-dicts) is modelled explicitly so that error paths
of the source are visible in the embedding.
-/

/-- JSON value, as produced by `response.json()` in the source. -/
inductive Json where
  | null : Json
  | bool : Bool → Json
  | num : Int → Json
  | str : String → Json
  | arr : List Json → Json
  | obj : List (String × Json) → Json

/-- Python exception kinds that the modelled code can raise besides the
API error itself. -/
inductive PyError where
  | attributeError : PyError
  | typeError : PyError
  deriving DecidableEq, Repr

/-- Python truthiness for the modelled JSON values: `None`, `False`, `0`,
`""`, `[]`, `{}` are falsy, everything else truthy. -/
def pyTruthy : Json → Bool
  | .null => false
  | .bool b => b
  | .num n => n != 0
  | .str s => s ≠ ""
  | .arr l => !l.isEmpty
  | .obj l => !l.isEmpty

/-- Python `repr()` on the modelled JSON values (string escaping inside
reprs is not modelled; no theorem depends on it). -/
def pyRepr : Json → String
  | .null => "None"
  | .bool b => if b then "True" else "False"
  | .num n => toString n
  | .str s => "\x27" ++ s ++ "\x27"
  | .arr l => "[" ++ String.intercalate ", " (l.attach.map fun x => pyRepr x.1) ++ "]"
  | .obj l => "\x7b" ++
      String.intercalate ", "
        (l.attach.map fun x => "\x27" ++ x.1.1 ++ "\x27: " ++ pyRepr x.1.2) ++ "\x7d"
decreasing_by
  · have h := List.sizeOf_lt_of_mem x.2
    simp_wf
    omega
  · have h := List.sizeOf_lt_of_mem x.2
    obtain ⟨⟨k, v⟩, hm⟩ := x
    simp_wf
    simp only [Prod.mk.sizeOf_spec] at h
    omega

mutual

/-- Structural equality on modelled JSON values (Python `==` as used by
the `in` operator on lists of strings). -/
def jsonBeq : Json → Json → Bool
  | .null, .null => true
  | .bool a, .bool b => a == b
  | .num a, .num b => a == b
  | .str a, .str b => a == b
  | .arr l1, .arr l2 => jsonBeqL l1 l2
  | .obj l1, .obj l2 => jsonBeqO l1 l2
  | _, _ => false

/-- Element-wise `jsonBeq` on lists. -/
def jsonBeqL : List Json → List Json → Bool
  | [], [] => true
  | x :: xs, y :: ys => jsonBeq x y && jsonBeqL xs ys
  | _, _ => false

/-- Entry-wise `jsonBeq` on dict entry lists. -/
def jsonBeqO : List (String × Json) → List (String × Json) → Bool
  | [], [] => true
  | (k1, v1) :: xs, (k2, v2) :: ys => k1 == k2 && jsonBeq v1 v2 && jsonBeqO xs ys
  | _, _ => false
end

/-- Test that `v` is the JSON null (Python `None`). -/
def Json.isNull : Json → Bool
  | .null => true
  | _ => false

/-- Python `str()` on the modelled JSON values: identity on strings,
`repr` otherwise (matches CPython for the relevant types). -/
def pyStr : Json → String
  | .str s => s
  | v => pyRepr v

/-- Subscript-style `d[k]` lookup on a modelled dict, `None` when absent
(Python `d.get(k)` with default `None`). -/
def pyDictGet (kvs : List (String × Json)) (k : String) : Json :=
  (kvs.lookup k).getD .null

/-- Python `v.get(k, default)`: attribute lookup on an arbitrary value — raises
`AttributeError` unless `v` is a dict, exactly as CPython does. -/
def pyGet (v : Json) (k : String) (default : Json) : Except PyError Json :=
  match v with
  | .obj kvs => .ok ((kvs.lookup k).getD default)
  | _ => .error .attributeError

/-- Test that `needle` is a leading segment of `hay` (character lists). -/
def startsWithL : List Char → List Char → Bool
  | [], _ => true
  | _ :: _, [] => false
  | a :: as, b :: bs => a = b && startsWithL as bs

/-- Test that `needle` occurs inside `hay` (character lists). -/
def containsL (needle : List Char) : List Char → Bool
  | [] => needle.isEmpty
  | c :: rest => startsWithL needle (c :: rest) || containsL needle rest

/-- Occurrence of `needle` inside `s` (Python `needle in s` on strings). -/
def pyStrContains (s needle : String) : Bool :=
  containsL needle.toList s.toList

/-- Python `needle in v`: key containment for dicts, membership for lists,
substring for strings, `TypeError` for non-containers. -/
def pyIn (needle : String) (v : Json) : Except PyError Bool :=
  match v with
  | .obj kvs => .ok (kvs.lookup needle).isSome
  | .arr l => .ok (l.any fun x => jsonBeq x (.str needle))
  | .str s => .ok (pyStrContains s needle)
  | _ => .error .typeError

/-- Python iteration `for x in v`: elements of a list, characters of a
string, keys of a dict; `TypeError` otherwise. -/
def pyIter (v : Json) : Except PyError (List Json) :=
  match v with
  | .arr l => .ok l
  | .str s => .ok (s.toList.map fun c => .str c.toString)
  | .obj kvs => .ok (kvs.map fun p => .str p.1)
  | _ => .error .typeError

/-- The underlying strings of a list of values, `TypeError` at the first
non-string (the check `str.join` performs while iterating). -/
def strValues : List Json → Except PyError (List String)
  | [] => .ok []
  | Json.str s :: rest =>
      match strValues rest with
      | .ok ss => .ok (s :: ss)
      | .error e => .error e
  | _ :: _ => .error PyError.typeError

/-- Python `sep.join(items)` where the items are modelled values: raises
`TypeError` unless every item is a string. -/
def pyJoin (sep : String) (items : List Json) : Except PyError String :=
  match strValues items with
  | .error e => .error e
  | .ok ss => .ok (String.intercalate sep ss)

/-- The string stored in a `Json.str`, `""` otherwise (used only to state
claims about values already known to be strings). -/
def asStr : Json → String
  | .str s => s
  | _ => ""

/-- The `v.get(k)` result seen through Python `is None`: dict lookup with
`null` for a missing key, `null` for non-dicts (the code paths using this
first establish the value is a dict). -/
def jsonGet (v : Json) (k : String) : Json :=
  match v with
  | .obj kvs => pyDictGet kvs k
  | _ => .null

/-! ### Error taxonomy — `OpenProjectAPIError.__init__`
(`src/openproject_client.py` lines 14-56). The constructor is split into
three helper functions covering contiguous line ranges of the source; the
`Except PyError` layer records the Python exceptions the original code can
raise while manipulating unexpectedly-typed bodies. -/

/-- The error value: final message, HTTP status, stored body
(`response_data or {}`), and the `error_code` member extracted on line 38
of `openproject_client.py`. -/
structure ApiErr where
  message : String
  status_code : Option Nat
  response_data : Json
  error_code : Json

/-- Extraction of one HAL error object's message: `isinstance(error, dict)`
guard, `error.get("message", "")`, kept only when truthy
(`openproject_client.py` lines 29-33). -/
def extractMsg : Json → Option Json
  | .obj mkvs =>
      let m := (mkvs.lookup "message").getD (.str "")
      if pyTruthy m then some m else none
  | _ => none

/-- The HAL `_embedded.errors` block of the constructor
(`openproject_client.py` lines 21-35): replaces the message with the
`"; "`-join of the embedded error messages when at least one is present. -/
def embMessage (message : String) (rd : Json) : Except PyError String :=
  if pyTruthy rd then
    match pyIn "_embedded" rd with
    | .error e => .error e
    | .ok false => .ok message
    | .ok true =>
      match pyGet rd "_embedded" (.obj []) with
      | .error e => .error e
      | .ok emb =>
        match pyGet emb "errors" (.arr []) with
        | .error e => .error e
        | .ok errors =>
          if pyTruthy errors then
            match pyIter errors with
            | .error e => .error e
            | .ok errList =>
              let msgs := errList.filterMap extractMsg
              if msgs.isEmpty then .ok message
              else
                match pyJoin "; " msgs with
                | .error e => .error e
                | .ok j => .ok j
          else .ok message
  else .ok message

/-- Line 38, `response_data.get("error_code") if response_data else None`
(`openproject_client.py` line 38). -/
def errorCodeOf (rd : Json) : Except PyError Json :=
  if pyTruthy rd then pyGet rd "error_code" .null else .ok .null

/-- One `"<field>: <detail>"` group of the validation-errors rendering: a
list value yields one entry per element, any other value one entry
(`openproject_client.py` lines 47-52). -/
def fieldDetails (f : String) (fv : Json) : List String :=
  match fv with
  | .arr l => l.map fun e => f ++ ": " ++ pyStr e
  | _ => [f ++ ": " ++ pyStr fv]

/-- The validation-errors block of the constructor
(`openproject_client.py` lines 40-54): appends
`". Validation errors: "` plus the `"; "`-joined field details when the
top-level `errors` member is a non-trivially-renderable dict. -/
def validationMessage (m : String) (rd : Json) : Except PyError String :=
  if pyTruthy rd then
    match pyIn "errors" rd with
    | .error e => .error e
    | .ok false => .ok m
    | .ok true =>
      match pyGet rd "errors" (.obj []) with
      | .error e => .error e
      | .ok ve =>
        match ve with
        | .obj fields =>
          let details := fields.flatMap fun p => fieldDetails p.1 p.2
          if details.isEmpty then .ok m
          else .ok (m ++ ". Validation errors: " ++ String.intercalate "; " details)
        | _ => .ok m
  else .ok m

/-- The constructor `OpenProjectAPIError.__init__` (`openproject_client.py` lines 16-56):
given the base message, optional status code and optional parsed body,
produce the error value, or the Python exception the constructor itself
raises on a pathologically-shaped body. -/
def mkApiError (message : String) (status_code : Option Nat) (rdOpt : Option Json) :
    Except PyError ApiErr :=
  let rd : Json := rdOpt.getD .null
  match embMessage message rd with
  | .error e => .error e
  | .ok m1 =>
    match errorCodeOf rd with
    | .error e => .error e
    | .ok ec =>
      match validationMessage m1 rd with
      | .error e => .error e
      | .ok m2 =>
        .ok { message := m2, status_code := status_code,
              response_data := if pyTruthy rd then rd else .obj [], error_code := ec }

/-! ### Request dispatcher — `OpenProjectClient._make_request`
(`src/openproject_client.py` lines 84-125). The HTTP exchange is abstracted
as an `HttpResponse`: status, reason phrase, whether the body is non-empty,
and the result of attempting to parse the body as JSON. -/

/-- An HTTP response as observed by `_make_request`: `parse` is the outcome
of `response.json()` (the error side carries the decode-failure text). -/
structure HttpResponse where
  status : Nat
  reason : String
  hasContent : Bool
  parse : Except String Json

/-- A failure propagating out of `_make_request`: either the raised
`OpenProjectAPIError`, or a Python exception escaping the error
constructor itself. -/
inductive DispatchErr where
  | api (e : ApiErr)
  | py (e : PyError)

/-- The base message `f"API request failed: {status_code} {reason_phrase}"`
(`openproject_client.py` line 106). -/
def mkFailMsg (resp : HttpResponse) : String :=
  "API request failed: " ++ toString resp.status ++ " " ++ resp.reason

/-- The non-2xx branch body parse: `response.json()` under a bare
`except`, failure giving `{}` (`openproject_client.py` lines 99-103). -/
def parsedOrEmpty (resp : HttpResponse) : Json :=
  match resp.parse with
  | .ok v => v
  | .error _ => .obj []

/-- The `_make_request` response handling (`openproject_client.py` lines
97-125): status `>= 400` raises the constructed error; otherwise a
non-empty body is parsed and returned (a decode failure raising the
`Invalid JSON response` error), and an empty body returns `{}`. -/
def makeRequest (resp : HttpResponse) : Except DispatchErr Json :=
  if 400 ≤ resp.status then
    match mkApiError (mkFailMsg resp) (some resp.status) (some (parsedOrEmpty resp)) with
    | .ok e => .error (.api e)
    | .error pe => .error (.py pe)
  else if resp.hasContent then
    match resp.parse with
    | .ok v => .ok v
    | .error s =>
      match mkApiError ("Invalid JSON response: " ++ s) none none with
      | .ok e => .error (.api e)
      | .error pe => .error (.py pe)
  else .ok (.obj [])

/-! ### Filter/query builder — `OpenProjectClient.search_work_packages`
and `_build_filter` (`src/openproject_client.py` lines 278-355), plus the
caller-facing `page_size` validation of the `search_work_packages` tool
(`src/mcp_server.py` lines 583-587). -/

/-- Truthiness of an optional integer parameter (`if project_id:` —
`None` and `0` are falsy). -/
def truthyOInt : Option Int → Bool
  | some n => n != 0
  | none => false

/-- Truthiness of an optional integer-list parameter (`if status_ids:` —
`None` and `[]` are falsy). -/
def truthyOList : Option (List Int) → Bool
  | some l => !l.isEmpty
  | none => false

/-- Truthiness of an optional string parameter (`if created_after:` —
`None` and `""` are falsy). -/
def truthyOStr : Option String → Bool
  | some s => s ≠ ""
  | none => false

/-- The helper `OpenProjectClient._build_filter` (`openproject_client.py` lines
339-355): the single-key filter object with element-wise `str()`
conversion of the values. -/
def buildFilter (field operator : String) (values : List Json) : Json :=
  .obj [(field, .obj [("operator", .str operator),
                      ("values", .arr (values.map fun v => .str (pyStr v)))])]

/-- The `filter_list` construction of `search_work_packages`
(`openproject_client.py` lines 290-330), written as the concatenation of
the conditionally-appended segments, in source order. -/
def buildFilterList (project_id : Option Int) (status_ids : Option (List Int))
    (assignee_id : Option Int) (type_ids priority_ids : Option (List Int))
    (created_after created_before due_after due_before subject_contains : Option String)
    (custom_filters : Option (List Json)) : List Json :=
  (if truthyOInt project_id then
      [buildFilter "project" "=" [.num (project_id.getD 0)]] else [])
  ++ (if truthyOList status_ids then
      [buildFilter "status" "=" ((status_ids.getD []).map Json.num)] else [])
  ++ (if truthyOInt assignee_id then
      [buildFilter "assignee" "=" [.num (assignee_id.getD 0)]] else [])
  ++ (if truthyOList type_ids then
      [buildFilter "type" "=" ((type_ids.getD []).map Json.num)] else [])
  ++ (if truthyOList priority_ids then
      [buildFilter "priority" "=" ((priority_ids.getD []).map Json.num)] else [])
  ++ (if truthyOStr created_after && truthyOStr created_before then
        [buildFilter "createdAt" "<>d"
          [.str (created_after.getD ""), .str (created_before.getD "")]]
      else if truthyOStr created_after then
        [buildFilter "createdAt" "<>d" [.str (created_after.getD ""), .str "2099-12-31"]]
      else if truthyOStr created_before then
        [buildFilter "createdAt" "<>d" [.str "1900-01-01", .str (created_before.getD "")]]
      else [])
  ++ (if truthyOStr due_after && truthyOStr due_before then
        [buildFilter "dueDate" "<>d"
          [.str (due_after.getD ""), .str (due_before.getD "")]]
      else if truthyOStr due_after then
        [buildFilter "dueDate" "<>d" [.str (due_after.getD ""), .str "2099-12-31"]]
      else if truthyOStr due_before then
        [buildFilter "dueDate" "<>d" [.str "1900-01-01", .str (due_before.getD "")]]
      else [])
  ++ (if truthyOStr subject_contains then
      [buildFilter "subject" "~" [.str (subject_contains.getD "")]] else [])
  ++ (match custom_filters with
      | some l => if !l.isEmpty then l else []
      | none => [])

/-- The `pageSize` entry of the low-level request parameters:
`min(page_size, 100)` (`openproject_client.py` line 280). -/
def searchPageSize (page_size : Int) : Int :=
  min page_size 100

/-- The caller-facing pagination validation of the `search_work_packages`
tool: accepts `None` and every value inside `[1,100]`
(`mcp_server.py` lines 583-587). -/
def pageSizeValid (page_size : Option Int) : Bool :=
  match page_size with
  | some p => !(p < 1 || 100 < p)
  | none => true

/-- The value conversion the C10 claim describes, defined from the claim's
words (numeric values become decimal strings, strings pass through), to be
compared against the source's `str()`-based conversion. -/
def claimStringify : Json → Json
  | .num n => .str (toString n)
  | .str s => .str s
  | v => v

/-! ### Pagination walker — `OpenProjectClient.get_paginated_results`
(`src/openproject_client.py` lines 524-550). The server is abstracted as a
function from offset to page (elements plus reported total); the walker
carries explicit fuel because the source's `while True` loop need not
terminate against an inconsistent server (for example one whose reported
total always exceeds the offset and whose pages are never empty). The
walker returns the accumulated elements together with the list of offsets
it issued GETs for, in order. -/

/-- One page response: the `_embedded.elements` list and the reported
`total` (both read with defaults in the source). -/
structure Page where
  elements : List Json
  total : Nat

/-- The walker `get_paginated_results` with explicit fuel: fixed `page_size = 100`,
offset advancing by `page_size`, stopping on an empty page or when
`offset + page_size >= total`. -/
def getPaginatedResults (pages : Nat → Page) : Nat → Nat → List Json →
    Option (List Json × List Nat)
  | 0, _, _ => none
  | fuel + 1, offset, acc =>
    let p := pages offset
    if p.elements.isEmpty then some (acc, [offset])
    else if p.total ≤ offset + 100 then some (acc ++ p.elements, [offset])
    else
      match getPaginatedResults pages fuel (offset + 100) (acc ++ p.elements) with
      | some (res, offs) => some (res, offset :: offs)
      | none => none

/-- A three-page server for the concrete pagination scenario: 237 distinct
elements served 100 at a time with `total = 237`. -/
def pages237 : Nat → Page :=
  fun offset =>
    { elements := (((List.range 237).drop offset).take 100).map fun i => Json.num i,
      total := 237 }

/-- The 237 elements of `pages237` in arrival order. -/
def elems237 : List Json :=
  (List.range 237).map fun i => Json.num i

/-! ### Reference-data cache — `OpenProjectClient.get_cached_or_fetch`
(`src/openproject_client.py` lines 498-511). Time is modelled in seconds;
the 5-minute `_cache_timeout` is 300 seconds. The fetch function is
abstracted by the value it would produce plus a returned flag recording
whether it was invoked. -/

/-- The timeout `self._cache_timeout = timedelta(minutes=5)`, in seconds. -/
def cacheTimeoutSeconds : Nat := 300

/-- Python dict assignment on an association list: replace the existing
entry in place, append when absent. -/
def dictSet (l : List (String × Json × Nat)) (k : String) (v : Json × Nat) :
    List (String × Json × Nat) :=
  match l with
  | [] => [(k, v)]
  | (k1, v1) :: rest => if k1 = k then (k, v) :: rest else (k1, v1) :: dictSet rest k v

/-- The lookup `get_cached_or_fetch(cache_key, fetch_func)` at time `now` over cache
contents `cache`: returns the produced value, the updated cache, and
whether `fetch_func` was invoked. -/
def getCachedOrFetch (now : Nat) (cache : List (String × Json × Nat))
    (key : String) (fetchVal : Json) :
    Json × List (String × Json × Nat) × Bool :=
  match cache.lookup key with
  | some (v, ts) =>
      if now - ts < cacheTimeoutSeconds then (v, cache, false)
      else (fetchVal, dictSet cache key (fetchVal, now), true)
  | none => (fetchVal, dictSet cache key (fetchVal, now), true)

/-! ### Date-format validation — `_is_valid_date_format`
(`src/mcp_server.py` lines 1318-1325): `datetime.strptime(s, "%Y-%m-%d")`
under try/except. `%Y` consumes one to four digits, `%m` and `%d` one or
two; the parsed triple must be a valid proleptic-Gregorian calendar date
with year at least 1. -/

/-- Gregorian leap-year rule, as applied by `datetime`. -/
def isLeapYear (y : Nat) : Bool :=
  y % 4 = 0 && (y % 100 != 0 || y % 400 = 0)

/-- Days in a month for `datetime`'s validity check. -/
def daysInMonth (y m : Nat) : Nat :=
  if m = 2 then (if isLeapYear y then 29 else 28)
  else if m = 4 || m = 6 || m = 9 || m = 11 then 30
  else 31

/-- Split a character list on a separator character (semantics of
Python `str.split` with an explicit single-character separator). -/
def splitOnChar (sep : Char) : List Char → List (List Char)
  | [] => [[]]
  | c :: rest =>
      let r := splitOnChar sep rest
      if c = sep then [] :: r
      else
        match r with
        | h :: t => (c :: h) :: t
        | [] => [[c]]

/-- All characters are ASCII digits and the list is non-empty. -/
def allDigits (cs : List Char) : Bool :=
  !cs.isEmpty && cs.all fun c => c.isDigit

/-- Decimal value of a digit list. -/
def digitsToNat (cs : List Char) : Nat :=
  cs.foldl (fun acc c => acc * 10 + (c.toNat - 48)) 0

/-- The validator `_is_valid_date_format` (`mcp_server.py` lines 1318-1325): the string
must decompose as `digits '-' digits '-' digits` with the field widths
`strptime` accepts (`%Y` one to four digits, `%m`/`%d` one or two) and the
triple must be a valid calendar date. -/
def isValidDateFormat (s : String) : Bool :=
  match splitOnChar (Char.ofNat 45) s.toList with
  | [ys, ms, ds] =>
      allDigits ys && allDigits ms && allDigits ds
      && ys.length ≤ 4 && ms.length ≤ 2 && ds.length ≤ 2
      && 1 ≤ digitsToNat ys
      && 1 ≤ digitsToNat ms && digitsToNat ms ≤ 12
      && 1 ≤ digitsToNat ds && digitsToNat ds ≤ daysInMonth (digitsToNat ys) (digitsToNat ms)
  | _ => false

/-! ### Optimistic-update protocol — the `update_work_package` tool
(`src/mcp_server.py` lines 686-800) and the `assign_work_package_by_email`
tool (`src/mcp_server.py` lines 978-1056), both dispatching through
`OpenProjectClient.update_work_package` (`src/openproject_client.py` lines
202-205, a PATCH of `/work_packages/{id}`) after
`OpenProjectClient.get_work_package_by_id` (lines 406-409, a GET of the
same path). The remote service is abstracted as an `Env` of responses; each
operation returns its outcome together with the ordered trace of network
events it produced. `estimated_hours` (a Python float used only for
truthiness and `PT{h}H` formatting) is modelled as a natural number. -/

/-- Responses of the remote service: the GET of a work package and the
PATCH can fail with an `ApiErr` (raised by `_make_request`); the user
lookup mirrors `get_user_by_email`, which swallows failures into `None`
(`openproject_client.py` lines 440-448). -/
structure Env where
  getWp : Int → Except ApiErr Json
  patchWp : Int → List (String × Json) → Except ApiErr Json
  getUserByEmail : String → Option Json

/-- A network event of an update operation, in dispatch order. -/
inductive Event where
  | getWpOk (id : Int) (resp : Json)
  | getWpErr (id : Int)
  | getUsers (email : String)
  | patchWp (id : Int) (updates : List (String × Json))

/-- The distinct outcomes of the `update_work_package` tool, one
constructor per `return json.dumps(...)` site (`mcp_server.py` lines
712-800): id validation, API failure, missing lock version, date-format
failures, the empty-update rejection, success, and the generic
`except Exception` handler. -/
inductive UpdateResult where
  | invalidId
  | apiError (e : ApiErr)
  | noLockVersion
  | invalidStartDate
  | invalidDueDate
  | noUpdates
  | success (wp : Json)
  | unexpectedError

/-- The distinct outcomes of the `assign_work_package_by_email` tool
(`mcp_server.py` lines 988-1056). -/
inductive AssignResult where
  | invalidId
  | invalidEmail
  | userNotFound
  | apiError (e : ApiErr)
  | noLockVersion
  | success (wp : Json)
  | unexpectedError

/-- The update-payload fields beyond `lockVersion` built by the
`update_work_package` tool (`mcp_server.py` lines 729-765), with the two
date-format early returns; field order follows the source's dict insertion
order (`_links` groups assignee and status). -/
def buildUpdates (subject description start_date due_date : Option String)
    (assignee_id status_id : Option Int) (estimated_hours : Option Nat) :
    Except UpdateResult (List (String × Json)) :=
  let subjectSeg := if truthyOStr subject
    then [("subject", Json.str (subject.getD "").trim)] else []
  let descSeg := match description with
    | some d => [("description", Json.obj [("raw", Json.str d.trim)])]
    | none => []
  if truthyOStr start_date && !isValidDateFormat (start_date.getD "") then
    .error .invalidStartDate
  else
    let startSeg := if truthyOStr start_date
      then [("startDate", Json.str (start_date.getD ""))] else []
    if truthyOStr due_date && !isValidDateFormat (due_date.getD "") then
      .error .invalidDueDate
    else
      let dueSeg := if truthyOStr due_date
        then [("dueDate", Json.str (due_date.getD ""))] else []
      let links :=
        (if truthyOInt assignee_id then
          [("assignee", Json.obj [("href",
            Json.str ("/api/v3/users/" ++ toString (assignee_id.getD 0)))])] else [])
        ++ (if truthyOInt status_id then
          [("status", Json.obj [("href",
            Json.str ("/api/v3/statuses/" ++ toString (status_id.getD 0)))])] else [])
      let linksSeg := if links.isEmpty then [] else [("_links", Json.obj links)]
      let hoursSeg := match estimated_hours with
        | some h => if h ≠ 0
            then [("estimatedTime", Json.str ("PT" ++ toString h ++ "H"))] else []
        | none => []
      .ok (subjectSeg ++ descSeg ++ startSeg ++ dueSeg ++ linksSeg ++ hoursSeg)

/-- The `update_work_package` tool (`mcp_server.py` lines 686-800):
validate the id, GET the work package, read `lockVersion` through
Python `.get`, build the delta, reject an empty delta, and PATCH with
`lockVersion` as the first payload entry. -/
def update_work_package (env : Env) (work_package_id : Int)
    (subject description start_date due_date : Option String)
    (assignee_id status_id : Option Int) (estimated_hours : Option Nat) :
    UpdateResult × List Event :=
  if work_package_id ≤ 0 then (.invalidId, [])
  else
    match env.getWp work_package_id with
    | .error e => (.apiError e, [.getWpErr work_package_id])
    | .ok resp =>
      match resp with
      | .obj kvs =>
        let ev := Event.getWpOk work_package_id (.obj kvs)
        let lockv := pyDictGet kvs "lockVersion"
        if lockv.isNull then (.noLockVersion, [ev])
        else
          match buildUpdates subject description start_date due_date
              assignee_id status_id estimated_hours with
          | .error r => (r, [ev])
          | .ok fields =>
            if fields.isEmpty then (.noUpdates, [ev])
            else
              let updates := ("lockVersion", lockv) :: fields
              match env.patchWp work_package_id updates with
              | .error e => (.apiError e, [ev, .patchWp work_package_id updates])
              | .ok r => (.success r, [ev, .patchWp work_package_id updates])
      | other =>
        -- `current_wp.get("lockVersion")` on a non-dict raises
        -- AttributeError, caught by the generic `except Exception`.
        (.unexpectedError, [Event.getWpOk work_package_id other])

/-- The `assign_work_package_by_email` tool (`mcp_server.py` lines
978-1056): validate inputs, resolve the user, GET the work package for its
`lockVersion`, then PATCH the assignee link together with the token. -/
def assign_work_package_by_email (env : Env) (work_package_id : Int)
    (assignee_email : String) : AssignResult × List Event :=
  if work_package_id ≤ 0 then (.invalidId, [])
  else if assignee_email = "" || !pyStrContains assignee_email "@" then
    (.invalidEmail, [])
  else
    let ev1 := Event.getUsers assignee_email
    match env.getUserByEmail assignee_email with
    | none => (.userNotFound, [ev1])
    | some user =>
      match env.getWp work_package_id with
      | .error e => (.apiError e, [ev1, .getWpErr work_package_id])
      | .ok resp =>
        match resp with
        | .obj kvs =>
          let ev2 := Event.getWpOk work_package_id (.obj kvs)
          let lockv := pyDictGet kvs "lockVersion"
          if lockv.isNull then (.noLockVersion, [ev1, ev2])
          else
            match user with
            | .obj ukvs =>
              let updates := [("lockVersion", lockv),
                ("_links", Json.obj [("assignee", Json.obj [("href",
                  Json.str ("/api/v3/users/" ++ pyStr (pyDictGet ukvs "id")))])])]
              match env.patchWp work_package_id updates with
              | .error e =>
                  (.apiError e, [ev1, ev2, .patchWp work_package_id updates])
              | .ok r =>
                  (.success r, [ev1, ev2, .patchWp work_package_id updates])
            | _ =>
              -- `user.get('id')` on a non-dict raises AttributeError,
              -- caught by the generic `except Exception`.
              (.unexpectedError, [ev1, ev2])
        | other => (.unexpectedError, [ev1, Event.getWpOk work_package_id other])

/-- The fetch-then-patch discipline over a trace: every PATCH of a work
package is preceded by a successful GET of the same work package whose
response carries a non-null `lockVersion` equal to the `lockVersion` entry
of the PATCH payload. -/
def lockProtocolOk (tr : List Event) : Prop :=
  ∀ i id updates, tr.get? i = some (.patchWp id updates) →
    ∃ j resp, j < i ∧ tr.get? j = some (.getWpOk id resp) ∧
      ∃ lv, lv ≠ Json.null ∧ jsonGet resp "lockVersion" = lv ∧
        updates.lookup "lockVersion" = some lv

/-! ### Claim-side definitions and concrete inputs used by witnesses and
counterexamples. -/

/-- The `"<field>: <detail>"` rendering the C4 claim describes, written
from the claim's words over string-valued details, to be compared with the
source's `str()`-based `fieldDetails`. -/
def claimDetails (f : String) (fv : Json) : List String :=
  match fv with
  | .arr l => l.map fun e => f ++ ": " ++ asStr e
  | _ => [f ++ ": " ++ asStr fv]

/-- A 404 response whose body fails to parse as JSON. -/
def resp404 : HttpResponse := ⟨404, "Not Found", true, .error "bad json"⟩

/-- A 200 response with an empty body. -/
def resp200empty : HttpResponse := ⟨200, "OK", false, .ok .null⟩

/-- A 301 response (non-2xx but below 400) with a parseable JSON body. -/
def resp301 : HttpResponse := ⟨301, "Moved Permanently", true, .ok (.obj [("a", .num 1)])⟩

/-- A remote service whose work package carries `lockVersion = 3` and
which accepts every PATCH. -/
def envLock : Env :=
  ⟨fun _ => .ok (.obj [("lockVersion", .num 3)]), fun _ _ => .ok .null,
   fun _ => some (.obj [("id", .num 5)])⟩

/-! ### Helper lemmas -/

/-- The constructed error always stores the status code it was given. -/
theorem mkApiError_ok_status (m : String) (st : Option Nat) (rd : Option Json) (e : ApiErr)
    (h : mkApiError m st rd = .ok e) : e.status_code = st := by
  simp only [mkApiError] at h
  split at h
  · exact absurd h (by simp)
  · split at h
    · exact absurd h (by simp)
    · split at h
      · exact absurd h (by simp)
      · simp only [Except.ok.injEq] at h
        subst h
        rfl

/-- A non-null-tested value is not the JSON null. -/
theorem isNull_false_ne (v : Json) (h : v.isNull = false) : v ≠ Json.null := by
  cases v <;> simp_all [Json.isNull]

/-! ### C3 — page-size clamping -/

/-- C3 (claim as stated is false): the low-level builder computes
`min(page_size, 100)`, which does not clamp from below — input `0` is
emitted as `0`, outside the inclusive range `[1,100]`. -/
theorem c3_page_size_counterexample :
    searchPageSize 0 = 0 ∧ ¬(1 ≤ searchPageSize 0 ∧ searchPageSize 0 ≤ 100) := by
  constructor
  · rfl
  · intro h
    simp [searchPageSize] at h

/-- C3 (amended): the low-level builder caps `page_size` from above at 100
and passes every value `≤ 100` (including values below 1) through
unchanged; the caller-facing validation layer accepts exactly the values
in `[1,100]`, and on every value it accepts the low-level clamp is the
identity, so the two layers agree at the upper boundary. -/
theorem c3_page_size_clamp (p : Int) :
    (1 ≤ p → p ≤ 100 → searchPageSize p = p)
    ∧ (100 < p → searchPageSize p = 100)
    ∧ (p ≤ 100 → searchPageSize p = p)
    ∧ (pageSizeValid (some p) = true ↔ 1 ≤ p ∧ p ≤ 100)
    ∧ (pageSizeValid (some p) = true → searchPageSize p = p) := by
  refine ⟨?_, ?_, ?_, ?_, ?_⟩ <;>
    simp [searchPageSize, pageSizeValid, min_def] <;> omega

/-- Witness for C3: 50 passes both layers unchanged, 150 is capped. -/
theorem c3_page_size_clamp_witness :
    searchPageSize 50 = 50 ∧ searchPageSize 150 = 100 ∧ pageSizeValid (some 50) = true :=
  ⟨(c3_page_size_clamp 50).1 (by norm_num) (by norm_num),
   (c3_page_size_clamp 150).2.1 (by norm_num),
   ((c3_page_size_clamp 50).2.2.2.1).mpr ⟨by norm_num, by norm_num⟩⟩

/-! ### C5 — reference-data cache TTL -/

/-- C5: a lookup strictly inside the 5-minute window returns the stored
value without fetching and leaves the cache unchanged; a lookup at or
after the window boundary, or on an absent key, invokes the fetch, stores
the pair `(result, now)` under the key, and returns the result. -/
theorem c5_cache_ttl (now : Nat) (cache : List (String × Json × Nat)) (key : String)
    (fetchVal : Json) :
    (∀ v ts, cache.lookup key = some (v, ts) → now - ts < cacheTimeoutSeconds →
        getCachedOrFetch now cache key fetchVal = (v, cache, false))
    ∧ (∀ v ts, cache.lookup key = some (v, ts) → cacheTimeoutSeconds ≤ now - ts →
        getCachedOrFetch now cache key fetchVal
          = (fetchVal, dictSet cache key (fetchVal, now), true))
    ∧ (cache.lookup key = none →
        getCachedOrFetch now cache key fetchVal
          = (fetchVal, dictSet cache key (fetchVal, now), true)) := by
  refine ⟨?_, ?_, ?_⟩
  · intro v ts h hlt
    simp [getCachedOrFetch, h, hlt]
  · intro v ts h hge
    simp [getCachedOrFetch, h]
    omega
  · intro h
    simp [getCachedOrFetch, h]

/-- Witness for C5: with the entry stored at 701 and TTL 300s, a lookup at
1000 (299s later) hits without fetching; stored at 700 (300s later), the
lookup fetches and overwrites. -/
theorem c5_cache_ttl_witness :
    getCachedOrFetch 1000 [("k", Json.num 7, 701)] "k" (Json.num 9)
      = (Json.num 7, [("k", Json.num 7, 701)], false)
    ∧ getCachedOrFetch 1000 [("k", Json.num 7, 700)] "k" (Json.num 9)
      = (Json.num 9, [("k", Json.num 9, 1000)], true) :=
  ⟨(c5_cache_ttl 1000 [("k", Json.num 7, 701)] "k" (Json.num 9)).1 (Json.num 7) 701 rfl
      (by norm_num [cacheTimeoutSeconds]),
   (c5_cache_ttl 1000 [("k", Json.num 7, 700)] "k" (Json.num 9)).2.1 (Json.num 7) 700 rfl
      (by norm_num [cacheTimeoutSeconds])⟩

/-! ### C10 — filter object construction -/

/-- C10: for every field, operator, and non-empty list of integer or
string values, `_build_filter` emits exactly the single-key mapping
`{field: {"operator": operator, "values": vs}}` where `vs` is the
element-wise string conversion of the inputs — numeric IDs appear as
decimal strings, never as JSON numbers. -/
theorem c10_build_filter (field operator : String) (values : List Json)
    (hne : values ≠ [])
    (hv : ∀ v ∈ values, (∃ n, v = Json.num n) ∨ (∃ s, v = Json.str s)) :
    buildFilter field operator values
      = Json.obj [(field, Json.obj [("operator", Json.str operator),
            ("values", Json.arr (values.map claimStringify))])] := by
  have hmap : values.map (fun v => Json.str (pyStr v)) = values.map claimStringify := by
    apply List.map_congr_left
    intro v hm
    rcases hv v hm with ⟨n, rfl⟩ | ⟨s, rfl⟩ <;> simp [pyStr, pyRepr, claimStringify]
  simp [buildFilter, hmap]

/-- Witness for C10: a numeric and a string value. -/
theorem c10_build_filter_witness :
    buildFilter "status" "=" [Json.num 42, Json.str "open"]
      = Json.obj [("status", Json.obj [("operator", Json.str "="),
            ("values", Json.arr [Json.str "42", Json.str "open"])])] := by
  have h := c10_build_filter "status" "=" [Json.num 42, Json.str "open"]
    (by simp)
    (by
      intro v hm
      simp only [List.mem_cons, List.not_mem_nil, or_false] at hm
      rcases hm with rfl | rfl
      · exact Or.inl ⟨42, rfl⟩
      · exact Or.inr ⟨"open", rfl⟩)
  exact h.trans rfl

/-! ### C7 — one-sided date-range sentinels -/

/-- C7: whichever other search criteria are supplied, a one-sided date
criterion produces a `"<>d"` filter whose missing side is exactly the
documented sentinel: `"1900-01-01"` for an absent lower bound and
`"2099-12-31"` for an absent upper bound (the other side of the pair being
non-truthy, i.e. absent or empty). -/
theorem c7_date_sentinels (project_id : Option Int) (status_ids : Option (List Int))
    (assignee_id : Option Int) (type_ids priority_ids : Option (List Int))
    (da db sc : Option String) (cf : Option (List Json))
    (d : String) (hd : d ≠ "") (o : Option String) (ho : truthyOStr o = false) :
    Json.obj [("createdAt", Json.obj [("operator", Json.str "<>d"),
        ("values", Json.arr [Json.str d, Json.str "2099-12-31"])])]
      ∈ buildFilterList project_id status_ids assignee_id type_ids priority_ids
          (some d) o da db sc cf
    ∧ Json.obj [("createdAt", Json.obj [("operator", Json.str "<>d"),
        ("values", Json.arr [Json.str "1900-01-01", Json.str d])])]
      ∈ buildFilterList project_id status_ids assignee_id type_ids priority_ids
          o (some d) da db sc cf
    ∧ Json.obj [("dueDate", Json.obj [("operator", Json.str "<>d"),
        ("values", Json.arr [Json.str d, Json.str "2099-12-31"])])]
      ∈ buildFilterList project_id status_ids assignee_id type_ids priority_ids
          da db (some d) o sc cf
    ∧ Json.obj [("dueDate", Json.obj [("operator", Json.str "<>d"),
        ("values", Json.arr [Json.str "1900-01-01", Json.str d])])]
      ∈ buildFilterList project_id status_ids assignee_id type_ids priority_ids
          da db o (some d) sc cf := by
  have hdt : truthyOStr (some d) = true := by simp [truthyOStr, hd]
  refine ⟨?_, ?_, ?_, ?_⟩
  · unfold buildFilterList
    apply List.mem_append_left
    apply List.mem_append_left
    apply List.mem_append_left
    apply List.mem_append_right
    simp [hdt, ho, buildFilter, pyStr, pyRepr]
  · unfold buildFilterList
    apply List.mem_append_left
    apply List.mem_append_left
    apply List.mem_append_left
    apply List.mem_append_right
    simp [hdt, ho, buildFilter, pyStr, pyRepr]
  · unfold buildFilterList
    apply List.mem_append_left
    apply List.mem_append_left
    apply List.mem_append_right
    simp [hdt, ho, buildFilter, pyStr, pyRepr]
  · unfold buildFilterList
    apply List.mem_append_left
    apply List.mem_append_left
    apply List.mem_append_right
    simp [hdt, ho, buildFilter, pyStr, pyRepr]

/-- Witness for C7: the four one-sided filters for the date
`"2024-06-01"` with every other criterion absent. -/
theorem c7_date_sentinels_witness :
    Json.obj [("createdAt", Json.obj [("operator", Json.str "<>d"),
        ("values", Json.arr [Json.str "2024-06-01", Json.str "2099-12-31"])])]
      ∈ buildFilterList none none none none none (some "2024-06-01") none none none none none
    ∧ Json.obj [("createdAt", Json.obj [("operator", Json.str "<>d"),
        ("values", Json.arr [Json.str "1900-01-01", Json.str "2024-06-01"])])]
      ∈ buildFilterList none none none none none none (some "2024-06-01") none none none none
    ∧ Json.obj [("dueDate", Json.obj [("operator", Json.str "<>d"),
        ("values", Json.arr [Json.str "2024-06-01", Json.str "2099-12-31"])])]
      ∈ buildFilterList none none none none none none none (some "2024-06-01") none none none
    ∧ Json.obj [("dueDate", Json.obj [("operator", Json.str "<>d"),
        ("values", Json.arr [Json.str "1900-01-01", Json.str "2024-06-01"])])]
      ∈ buildFilterList none none none none none none none none (some "2024-06-01") none none :=
  c7_date_sentinels none none none none none none none none none
    "2024-06-01" (by decide) none rfl

/-! ### C2 — dispatcher outcome classification -/

/-- C2 (claim as stated is false): a 301 response — not in the 2xx range —
does not raise; the dispatcher returns its parsed body, because the source
raises only for status `>= 400`. -/
theorem c2_dispatch_counterexample :
    ¬(200 ≤ resp301.status ∧ resp301.status < 300)
    ∧ makeRequest resp301 = .ok (.obj [("a", .num 1)]) := by
  constructor
  · intro h
    simp [resp301] at h
  · rfl

/-- C2 (amended): the dispatcher raises exactly for status `>= 400`
(1xx/3xx pass through like 2xx). For status `>= 400` it never returns a
body, and whenever constructing the error from the parsed-or-empty body
succeeds (cf. C9) the raised value is that ApiError, carrying the
response's status code. For status `< 400` an empty body yields the empty
mapping, a parseable body is returned as parsed, and a non-empty
unparseable body raises the `Invalid JSON response` ApiError. -/
theorem c2_dispatch (resp : HttpResponse) :
    (400 ≤ resp.status →
      (∀ v, makeRequest resp ≠ .ok v)
      ∧ ∀ e, mkApiError (mkFailMsg resp) (some resp.status) (some (parsedOrEmpty resp))
            = .ok e →
          makeRequest resp = .error (.api e) ∧ e.status_code = some resp.status)
    ∧ (resp.status < 400 →
      (resp.hasContent = false → makeRequest resp = .ok (.obj []))
      ∧ (∀ v, resp.parse = .ok v → resp.hasContent = true → makeRequest resp = .ok v)
      ∧ (∀ s, resp.parse = .error s → resp.hasContent = true →
          ∃ e, makeRequest resp = .error (.api e)
            ∧ e.message = "Invalid JSON response: " ++ s)) := by
  constructor
  · intro h400
    constructor
    · intro v hv
      unfold makeRequest at hv
      rw [if_pos h400] at hv
      rcases hmk : mkApiError (mkFailMsg resp) (some resp.status) (some (parsedOrEmpty resp))
        with pe | e
      · rw [hmk] at hv
        exact Except.noConfusion hv
      · rw [hmk] at hv
        exact Except.noConfusion hv
    · intro e he
      refine ⟨?_, mkApiError_ok_status _ _ _ _ he⟩
      unfold makeRequest
      rw [if_pos h400, he]
  · intro hlt
    have hn : ¬ 400 ≤ resp.status := by omega
    refine ⟨?_, ?_, ?_⟩
    · intro hc
      simp [makeRequest, hn, hc]
    · intro v hp hc
      simp [makeRequest, hn, hc, hp]
    · intro s hp hc
      refine ⟨⟨"Invalid JSON response: " ++ s, none, .obj [], .null⟩, ?_, rfl⟩
      simp [makeRequest, hn, hc, hp, mkApiError, embMessage, errorCodeOf,
        validationMessage, pyTruthy]

/-- Witness for C2: a 404 with an unparseable body never returns a body,
and a 200 with an empty body returns the empty mapping. -/
theorem c2_dispatch_witness :
    (∀ v, makeRequest resp404 ≠ .ok v)
    ∧ makeRequest resp200empty = .ok (.obj []) :=
  ⟨((c2_dispatch resp404).1 (by norm_num [resp404])).1,
   ((c2_dispatch resp200empty).2 (by norm_num [resp200empty])).1 rfl⟩

/-! ### C9 — totality of error construction -/

/-- Evaluating `strValues` on a list of strings returns exactly the underlying
strings. -/
theorem strValues_all_str (items : List Json)
    (h : ∀ x ∈ items, ∃ s, x = Json.str s) :
    strValues items = .ok (items.map asStr) := by
  induction items with
  | nil => rfl
  | cons x xs ih =>
      obtain ⟨s, rfl⟩ := h x (List.mem_cons_self x xs)
      have := ih fun y hy => h y (List.mem_cons_of_mem _ hy)
      simp [strValues, this, asStr]

/-- What a successful `extractMsg` tells about its input and output. -/
theorem extractMsg_some (e x : Json) (h : extractMsg e = some x) :
    ∃ mk, e = Json.obj mk ∧ pyTruthy x = true
      ∧ (mk.lookup "message").getD (Json.str "") = x := by
  cases e <;> simp [extractMsg] at h
  case obj mk =>
    obtain ⟨ht, hv⟩ := h
    exact ⟨mk, rfl, hv ▸ ht, hv⟩

/-- The extraction `errorCodeOf` never raises on a dict body. -/
theorem errorCodeOf_obj_ok (kvs : List (String × Json)) :
    ∃ c, errorCodeOf (Json.obj kvs) = .ok c := by
  unfold errorCodeOf
  split
  · exact ⟨_, rfl⟩
  · exact ⟨_, rfl⟩

/-- The block `validationMessage` never raises on a dict body. -/
theorem validationMessage_obj_ok (m : String) (kvs : List (String × Json)) :
    ∃ m2, validationMessage m (Json.obj kvs) = .ok m2 := by
  unfold validationMessage
  cases htr : pyTruthy (Json.obj kvs) with
  | false => simp [htr]
  | true =>
      simp only [htr, if_true, pyIn, pyGet]
      cases hl : (kvs.lookup "errors").isSome with
      | false => exact ⟨m, rfl⟩
      | true =>
          cases hv : (kvs.lookup "errors").getD (Json.obj []) with
          | obj fields =>
              simp only [hv]
              split
              · exact ⟨_, rfl⟩
              · exact ⟨_, rfl⟩
          | null => exact ⟨m, by simp [hv]⟩
          | bool b => exact ⟨m, by simp [hv]⟩
          | num n => exact ⟨m, by simp [hv]⟩
          | str s => exact ⟨m, by simp [hv]⟩
          | arr l => exact ⟨m, by simp [hv]⟩

/-- The block `embMessage` never raises on a dict body whose `_embedded` member, if
present, is itself a dict whose `errors` member, if present, is a list
whose dict elements carry only string truthy `message` values. -/
theorem embMessage_obj_ok (m : String) (kvs : List (String × Json))
    (hemb : ∀ v, kvs.lookup "_embedded" = some v → ∃ ekvs, v = Json.obj ekvs ∧
        ∀ w, ekvs.lookup "errors" = some w → ∃ l, w = Json.arr l ∧
          ∀ e ∈ l, ∀ mk, e = Json.obj mk → ∀ mv, mk.lookup "message" = some mv →
            pyTruthy mv = true → ∃ s, mv = Json.str s) :
    ∃ m1, embMessage m (Json.obj kvs) = .ok m1 := by
  unfold embMessage
  cases htr : pyTruthy (Json.obj kvs) with
  | false => simp [htr]
  | true =>
      simp only [htr, if_true, pyIn]
      cases hl : kvs.lookup "_embedded" with
      | none => exact ⟨m, by simp [hl]⟩
      | some v =>
          obtain ⟨ekvs, rfl, herr⟩ := hemb v hl
          simp only [hl, Option.isSome_some, pyGet, Option.getD_some]
          cases hw : ekvs.lookup "errors" with
          | none => exact ⟨m, by simp [hw, pyTruthy]⟩
          | some w =>
              obtain ⟨l, rfl, hmsg⟩ := herr w hw
              simp only [hw, Option.getD_some]
              cases hle : l.isEmpty with
              | true => exact ⟨m, by simp [pyTruthy, hle]⟩
              | false =>
                  simp only [pyTruthy, hle, Bool.not_false, if_true, pyIter]
                  cases hme : (l.filterMap extractMsg).isEmpty with
                  | true => exact ⟨m, by simp [hme]⟩
                  | false =>
                      have hstr : ∀ x ∈ l.filterMap extractMsg, ∃ s, x = Json.str s := by
                        intro x hx
                        obtain ⟨e, he, hex⟩ := List.mem_filterMap.mp hx
                        obtain ⟨mk, rfl, hxt, hxv⟩ := extractMsg_some e x hex
                        cases hmk : mk.lookup "message" with
                        | none =>
                            rw [hmk] at hxv
                            simp at hxv
                            rw [← hxv] at hxt
                            simp [pyTruthy] at hxt
                        | some mv =>
                            rw [hmk] at hxv
                            simp at hxv
                            subst hxv
                            exact hmsg _ he mk rfl mv hmk hxt
                      simp only [hme, if_false, pyJoin,
                        strValues_all_str _ hstr]
                      exact ⟨_, rfl⟩

/-- C9 (claim as stated is false): on the body `{"_embedded": 1}` the
constructor raises `AttributeError` (from `.get` on a non-dict) instead of
terminating normally. -/
theorem c9_taxonomy_counterexample :
    mkApiError "API request failed: 422 Unprocessable Entity" (some 422)
        (some (Json.obj [("_embedded", Json.num 1)]))
      = .error .attributeError := rfl

/-- C9 (amended): for every status and every parsed JSON body that is a
mapping in which the value under `"_embedded"`, if present, is a mapping
whose `"errors"` member, if present, is a list whose dict elements carry
only string-valued truthy `message` members, the construction is a pure
total data transformation: it terminates with the error value and raises
nothing. (Bodies outside this shape can raise `AttributeError` or
`TypeError`, as the counterexample shows.) -/
theorem c9_taxonomy_total (m : String) (st : Option Nat) (kvs : List (String × Json))
    (hemb : ∀ v, kvs.lookup "_embedded" = some v → ∃ ekvs, v = Json.obj ekvs ∧
        ∀ w, ekvs.lookup "errors" = some w → ∃ l, w = Json.arr l ∧
          ∀ e ∈ l, ∀ mk, e = Json.obj mk → ∀ mv, mk.lookup "message" = some mv →
            pyTruthy mv = true → ∃ s, mv = Json.str s) :
    ∃ err, mkApiError m st (some (Json.obj kvs)) = .ok err := by
  obtain ⟨m1, h1⟩ := embMessage_obj_ok m kvs hemb
  obtain ⟨c, h2⟩ := errorCodeOf_obj_ok kvs
  obtain ⟨m2, h3⟩ := validationMessage_obj_ok m1 kvs
  simp only [mkApiError, Option.getD_some, h1, h2, h3]
  exact ⟨_, rfl⟩

/-- Witness for C9: the synthetic HAL error body with two messages and a
validation map is constructed without raising. -/
theorem c9_taxonomy_total_witness :
    ∃ err, mkApiError "base" (some 422)
        (some (Json.obj [("_embedded", Json.obj [("errors",
            Json.arr [Json.obj [("message", Json.str "A")]])]),
          ("errors", Json.obj [("subject", Json.arr [Json.str "is blank"])])]))
      = .ok err := by
  apply c9_taxonomy_total
  intro v hv
  obtain rfl := Option.some.inj hv
  refine ⟨_, rfl, ?_⟩
  intro w hw
  obtain rfl := Option.some.inj hw
  refine ⟨_, rfl, ?_⟩
  intro e he mk hmk mv hmv htr
  simp only [List.mem_singleton] at he
  subst he
  injection hmk with hmk2
  subst hmk2
  exact ⟨"A", (Option.some.inj hmv).symm⟩

/-! ### C4 — error-taxonomy message construction -/

/-- Under the C4 shape (every embedded error object carries a non-empty
string message), the source's message extraction keeps every error, in
order, as its message string. -/
theorem filterMap_extractMsg (errs : List Json)
    (h : ∀ e ∈ errs, ∃ mk s, e = Json.obj mk
        ∧ mk.lookup "message" = some (Json.str s) ∧ s ≠ "") :
    errs.filterMap extractMsg
      = errs.map fun e => Json.str (asStr (jsonGet e "message")) := by
  induction errs with
  | nil => rfl
  | cons e es ih =>
      obtain ⟨mk, s, rfl, hlk, hs⟩ := h e (List.mem_cons_self e es)
      have ihh := ih fun y hy => h y (List.mem_cons_of_mem _ hy)
      simp [List.filterMap_cons, extractMsg, hlk, pyTruthy, hs, ihh,
        jsonGet, pyDictGet, asStr]

/-- Under the C4 shape, `embMessage` replaces the base message with the
`"; "`-join of the embedded error messages. -/
theorem embMessage_hal (m : String) (kvs ekvs : List (String × Json)) (errs : List Json)
    (h1 : kvs.lookup "_embedded" = some (Json.obj ekvs))
    (h2 : ekvs.lookup "errors" = some (Json.arr errs))
    (h3 : errs ≠ [])
    (h4 : ∀ e ∈ errs, ∃ mk s, e = Json.obj mk
        ∧ mk.lookup "message" = some (Json.str s) ∧ s ≠ "") :
    embMessage m (Json.obj kvs)
      = .ok (String.intercalate "; " (errs.map fun e => asStr (jsonGet e "message"))) := by
  have htr : pyTruthy (Json.obj kvs) = true := by
    cases kvs with
    | nil => simp at h1
    | cons a l => simp [pyTruthy]
  have hne : errs.isEmpty = false := by cases errs <;> simp_all
  unfold embMessage
  simp only [htr, if_true, pyIn, h1, Option.isSome_some, pyGet, Option.getD_some, h2,
    pyTruthy, hne, Bool.not_false, if_true, pyIter,
    filterMap_extractMsg errs h4]
  have hm : (errs.map fun e => Json.str (asStr (jsonGet e "message"))).isEmpty = false := by
    cases errs <;> simp_all
  have hstr : strValues (errs.map fun e => Json.str (asStr (jsonGet e "message")))
      = .ok (errs.map fun e => asStr (jsonGet e "message")) := by
    rw [strValues_all_str]
    · rw [List.map_map]
      rfl
    · intro x hx
      obtain ⟨e, he, rfl⟩ := List.mem_map.mp hx
      exact ⟨_, rfl⟩
  simp only [hm, Bool.false_eq_true, if_false, pyJoin, hstr]
  have hk : (!kvs.isEmpty) = true := by simpa [pyTruthy] using htr
  simp [hk]

/-- The block `validationMessage` leaves the message unchanged when the body has no
top-level `errors` key. -/
theorem validationMessage_none (m : String) (kvs : List (String × Json))
    (h : kvs.lookup "errors" = none) :
    validationMessage m (Json.obj kvs) = .ok m := by
  unfold validationMessage
  split
  · simp [pyIn, h]
  · rfl

/-- The source's per-field rendering agrees with the claim's rendering on
string and list-of-string values. -/
theorem fieldDetails_claim (f : String) (v : Json)
    (hv : (∃ s, v = Json.str s)
        ∨ (∃ l, v = Json.arr l ∧ l ≠ [] ∧ ∀ x ∈ l, ∃ s, x = Json.str s)) :
    fieldDetails f v = claimDetails f v := by
  rcases hv with ⟨s, rfl⟩ | ⟨l, rfl, hne, hl⟩
  · simp [fieldDetails, claimDetails, pyStr, asStr]
  · simp only [fieldDetails, claimDetails]
    apply List.map_congr_left
    intro x hx
    obtain ⟨s, rfl⟩ := hl x hx
    simp [pyStr, asStr]

/-- Under the C4 value shapes, the source's detail rendering agrees with
the claim's rendering across all fields. -/
theorem flatMap_fieldDetails (fields : List (String × Json))
    (hv : ∀ p ∈ fields, (∃ s, p.2 = Json.str s)
        ∨ (∃ l, p.2 = Json.arr l ∧ l ≠ [] ∧ ∀ x ∈ l, ∃ s, x = Json.str s)) :
    (fields.flatMap fun p => fieldDetails p.1 p.2)
      = fields.flatMap fun p => claimDetails p.1 p.2 := by
  induction fields with
  | nil => rfl
  | cons p ps ih =>
      have hp := fieldDetails_claim p.1 p.2 (hv p (List.mem_cons_self p ps))
      have hps := ih fun q hq => hv q (List.mem_cons_of_mem _ hq)
      simp [List.flatMap_cons, hp, hps]

/-- Under the C4 validation-map shape, `validationMessage` appends the
rendered field details. -/
theorem validationMessage_fields (m : String) (kvs fields : List (String × Json))
    (h : kvs.lookup "errors" = some (Json.obj fields))
    (hne : fields ≠ [])
    (hv : ∀ p ∈ fields, (∃ s, p.2 = Json.str s)
        ∨ (∃ l, p.2 = Json.arr l ∧ l ≠ [] ∧ ∀ x ∈ l, ∃ s, x = Json.str s)) :
    validationMessage m (Json.obj kvs)
      = .ok (m ++ ". Validation errors: "
          ++ String.intercalate "; " (fields.flatMap fun p => claimDetails p.1 p.2)) := by
  have htr : pyTruthy (Json.obj kvs) = true := by
    cases kvs with
    | nil => simp at h
    | cons a l => simp [pyTruthy]
  have hdet := flatMap_fieldDetails fields hv
  have hdne : (fields.flatMap fun p => claimDetails p.1 p.2) ≠ [] := by
    cases fields with
    | nil => exact absurd rfl hne
    | cons p ps =>
        have hp := hv p (List.mem_cons_self p ps)
        have hcd : claimDetails p.1 p.2 ≠ [] := by
          rcases hp with ⟨s, hs⟩ | ⟨l, hl, hlne, _⟩
          · rw [hs]
            simp [claimDetails]
          · rw [hl]
            simp only [claimDetails]
            intro hmap
            exact hlne (List.map_eq_nil_iff.mp hmap)
        intro hflat
        rw [List.flatMap_cons] at hflat
        exact hcd (List.append_eq_nil.mp hflat).1
  unfold validationMessage
  simp only [htr, if_true, pyIn, h, Option.isSome_some, pyGet, Option.getD_some, hdet]
  have hie : (fields.flatMap fun p => claimDetails p.1 p.2).isEmpty = false := by
    cases hfe : (fields.flatMap fun p => claimDetails p.1 p.2) with
    | nil => exact absurd hfe hdne
    | cons a la => simp
  simp only [hie, Bool.false_eq_true, if_false]

/-- The block `embMessage` leaves the message unchanged when the body has
no `_embedded` key. -/
theorem embMessage_no_embedded (m : String) (kvs : List (String × Json))
    (h : kvs.lookup "_embedded" = none) :
    embMessage m (Json.obj kvs) = .ok m := by
  unfold embMessage
  split
  · simp [pyIn, h]
  · rfl

/-- C4: for every status and every parsed body — when the body carries a
HAL `_embedded.errors` list of error objects with non-empty string
messages, the constructed error's message is the `"; "`-join of those
messages; and whenever the body carries a field-keyed validation map
(fields to strings or non-empty lists of strings), with or without such a
HAL block, the message in force — the join when the HAL block is present,
the base message when `_embedded` is absent — is further suffixed with
`". Validation errors: "` followed by the `"; "`-joined
`"<field>: <detail>"` entries, one per error string of every field. -/
theorem c4_error_messages (m0 : String) (st : Option Nat)
    (kvs : List (String × Json)) :
    (∀ ekvs errs, kvs.lookup "_embedded" = some (Json.obj ekvs) →
        ekvs.lookup "errors" = some (Json.arr errs) → errs ≠ [] →
        (∀ e ∈ errs, ∃ mk s, e = Json.obj mk
            ∧ mk.lookup "message" = some (Json.str s) ∧ s ≠ "") →
        kvs.lookup "errors" = none →
        ∃ err, mkApiError m0 st (some (Json.obj kvs)) = .ok err
          ∧ err.message
              = String.intercalate "; " (errs.map fun e => asStr (jsonGet e "message")))
    ∧ (∀ ekvs errs fields, kvs.lookup "_embedded" = some (Json.obj ekvs) →
        ekvs.lookup "errors" = some (Json.arr errs) → errs ≠ [] →
        (∀ e ∈ errs, ∃ mk s, e = Json.obj mk
            ∧ mk.lookup "message" = some (Json.str s) ∧ s ≠ "") →
        kvs.lookup "errors" = some (Json.obj fields) → fields ≠ [] →
        (∀ p ∈ fields, (∃ s, p.2 = Json.str s)
            ∨ (∃ l, p.2 = Json.arr l ∧ l ≠ [] ∧ ∀ x ∈ l, ∃ s, x = Json.str s)) →
        ∃ err, mkApiError m0 st (some (Json.obj kvs)) = .ok err
          ∧ err.message
              = String.intercalate "; " (errs.map fun e => asStr (jsonGet e "message"))
                ++ ". Validation errors: "
                ++ String.intercalate "; " (fields.flatMap fun p => claimDetails p.1 p.2))
    ∧ (kvs.lookup "_embedded" = none →
        ∀ fields, kvs.lookup "errors" = some (Json.obj fields) → fields ≠ [] →
        (∀ p ∈ fields, (∃ s, p.2 = Json.str s)
            ∨ (∃ l, p.2 = Json.arr l ∧ l ≠ [] ∧ ∀ x ∈ l, ∃ s, x = Json.str s)) →
        ∃ err, mkApiError m0 st (some (Json.obj kvs)) = .ok err
          ∧ err.message
              = m0 ++ ". Validation errors: "
                ++ String.intercalate "; " (fields.flatMap fun p => claimDetails p.1 p.2)) := by
  refine ⟨?_, ?_, ?_⟩
  · intro ekvs errs h1 h2 h3 h4 hnone
    have hemb := embMessage_hal m0 kvs ekvs errs h1 h2 h3 h4
    obtain ⟨c, hec⟩ := errorCodeOf_obj_ok kvs
    have hval := validationMessage_none
      (String.intercalate "; " (errs.map fun e => asStr (jsonGet e "message"))) kvs hnone
    simp only [mkApiError, Option.getD_some, hemb, hec, hval]
    exact ⟨_, rfl, rfl⟩
  · intro ekvs errs fields h1 h2 h3 h4 hf hfne hfv
    have hemb := embMessage_hal m0 kvs ekvs errs h1 h2 h3 h4
    obtain ⟨c, hec⟩ := errorCodeOf_obj_ok kvs
    have hval := validationMessage_fields
      (String.intercalate "; " (errs.map fun e => asStr (jsonGet e "message")))
      kvs fields hf hfne hfv
    simp only [mkApiError, Option.getD_some, hemb, hec, hval]
    exact ⟨_, rfl, rfl⟩
  · intro hnoemb fields hf hfne hfv
    have hemb := embMessage_no_embedded m0 kvs hnoemb
    obtain ⟨c, hec⟩ := errorCodeOf_obj_ok kvs
    have hval := validationMessage_fields m0 kvs fields hf hfne hfv
    simp only [mkApiError, Option.getD_some, hemb, hec, hval]
    exact ⟨_, rfl, rfl⟩

/-- Witness for C4: the claim's synthetic body yields the message
`"A; B"`; adding the validation map `{"subject": ["is blank"]}` yields
`"A; B. Validation errors: subject: is blank"`; and the validation map
alone — no HAL block — suffixes the base message, yielding
`"base. Validation errors: subject: is blank"`. -/
theorem c4_error_messages_witness :
    (∃ err, mkApiError "base" (some 422)
        (some (Json.obj [("_embedded", Json.obj [("errors",
          Json.arr [Json.obj [("message", Json.str "A")],
                    Json.obj [("message", Json.str "B")]])])]))
      = .ok err ∧ err.message = "A; B")
    ∧ (∃ err, mkApiError "base" (some 422)
        (some (Json.obj [("_embedded", Json.obj [("errors",
          Json.arr [Json.obj [("message", Json.str "A")],
                    Json.obj [("message", Json.str "B")]])]),
          ("errors", Json.obj [("subject", Json.arr [Json.str "is blank"])])]))
      = .ok err ∧ err.message = "A; B. Validation errors: subject: is blank")
    ∧ (∃ err, mkApiError "base" (some 422)
        (some (Json.obj [("errors", Json.obj [("subject",
          Json.arr [Json.str "is blank"])])]))
      = .ok err ∧ err.message = "base. Validation errors: subject: is blank") := by
  have h4 : ∀ e ∈ [Json.obj [("message", Json.str "A")], Json.obj [("message", Json.str "B")]],
      ∃ mk s, e = Json.obj mk ∧ mk.lookup "message" = some (Json.str s) ∧ s ≠ "" := by
    intro e he
    simp only [List.mem_cons, List.not_mem_nil, or_false] at he
    rcases he with rfl | rfl
    · exact ⟨_, "A", rfl, rfl, by decide⟩
    · exact ⟨_, "B", rfl, rfl, by decide⟩
  have h3 : ([Json.obj [("message", Json.str "A")],
      Json.obj [("message", Json.str "B")]] : List Json) ≠ [] := List.cons_ne_nil _ _
  have hfv : ∀ p ∈ [("subject", Json.arr [Json.str "is blank"])],
      (∃ s, p.2 = Json.str s)
      ∨ (∃ l, p.2 = Json.arr l ∧ l ≠ [] ∧ ∀ x ∈ l, ∃ s, x = Json.str s) := by
    intro p hp
    simp only [List.mem_singleton] at hp
    subst hp
    refine Or.inr ⟨[Json.str "is blank"], rfl, List.cons_ne_nil _ _, ?_⟩
    intro x hx
    simp only [List.mem_singleton] at hx
    subst hx
    exact ⟨"is blank", rfl⟩
  refine ⟨?_, ?_, ?_⟩
  · obtain ⟨err, he, hm⟩ := (c4_error_messages "base" (some 422)
      [("_embedded", Json.obj [("errors",
        Json.arr [Json.obj [("message", Json.str "A")],
                  Json.obj [("message", Json.str "B")]])])]).1
      [("errors", Json.arr [Json.obj [("message", Json.str "A")],
                            Json.obj [("message", Json.str "B")]])]
      [Json.obj [("message", Json.str "A")], Json.obj [("message", Json.str "B")]]
      rfl rfl h3 h4 rfl
    exact ⟨err, he, hm.trans rfl⟩
  · obtain ⟨err, he, hm⟩ := (c4_error_messages "base" (some 422)
      [("_embedded", Json.obj [("errors",
        Json.arr [Json.obj [("message", Json.str "A")],
                  Json.obj [("message", Json.str "B")]])]),
        ("errors", Json.obj [("subject", Json.arr [Json.str "is blank"])])]).2.1
      [("errors", Json.arr [Json.obj [("message", Json.str "A")],
                            Json.obj [("message", Json.str "B")]])]
      [Json.obj [("message", Json.str "A")], Json.obj [("message", Json.str "B")]]
      [("subject", Json.arr [Json.str "is blank"])]
      rfl rfl h3 h4 rfl (List.cons_ne_nil _ _) hfv
    exact ⟨err, he, hm.trans rfl⟩
  · obtain ⟨err, he, hm⟩ := (c4_error_messages "base" (some 422)
      [("errors", Json.obj [("subject", Json.arr [Json.str "is blank"])])]).2.2
      rfl [("subject", Json.arr [Json.str "is blank"])]
      rfl (List.cons_ne_nil _ _) hfv
    exact ⟨err, he, hm.trans rfl⟩

/-- Prepending the starting offset to a 100-stepped offset sequence based
at `off + 100` gives the 100-stepped sequence based at `off`. -/
theorem range_map_shift (off n : Nat) :
    off :: ((List.range (n + 1)).map fun i => off + 100 + i * 100)
      = (List.range (n + 2)).map fun i => off + i * 100 := by
  conv_rhs => rw [List.range_succ_eq_map]
  simp only [List.map_cons, List.map_map]
  congr 1
  apply List.map_congr_left
  intro i hi
  simp only [Function.comp_apply]
  omega

/-- Full characterization of a terminating pagination walk started at any
offset: the issued offsets step by the fixed page size 100, the result is
the accumulator followed by the concatenated page elements in arrival
order, every non-final page was non-empty with `offset + 100 < total`, and
the final page was empty or reached `offset + 100 >= total`. -/
theorem getPaginatedResults_spec (pages : Nat → Page) :
    ∀ fuel off acc res offs,
      getPaginatedResults pages fuel off acc = some (res, offs) →
      (∃ n : Nat, offs = (List.range (n + 1)).map fun i => off + i * 100)
      ∧ res = acc ++ offs.flatMap (fun o => (pages o).elements)
      ∧ (∀ o ∈ offs.dropLast, (pages o).elements ≠ [] ∧ o + 100 < (pages o).total)
      ∧ (∃ last, offs.getLast? = some last ∧
          ((pages last).elements = [] ∨ (pages last).total ≤ last + 100)) := by
  intro fuel
  induction fuel with
  | zero => intro off acc res offs h; exact absurd h (by simp [getPaginatedResults])
  | succ m ih =>
      intro off acc res offs h
      rw [getPaginatedResults] at h
      split at h
      · -- empty page
        next hempty =>
        obtain ⟨rfl, rfl⟩ := Prod.mk.injEq _ _ _ _ ▸ (Option.some.inj h)
        refine ⟨⟨0, by simp [List.range_succ]⟩, ?_, by simp,
          ⟨off, rfl, Or.inl (List.isEmpty_iff.mp hempty)⟩⟩
        simp [List.isEmpty_iff.mp hempty]
      · split at h
        · -- last page: offset + 100 >= total
          next hnonempty htot =>
          obtain ⟨rfl, rfl⟩ := Prod.mk.injEq _ _ _ _ ▸ (Option.some.inj h)
          exact ⟨⟨0, by simp [List.range_succ]⟩, by simp, by simp, ⟨off, rfl, Or.inr htot⟩⟩
        · -- recursive step
          next hnonempty htot =>
          cases hrec : getPaginatedResults pages m (off + 100) (acc ++ (pages off).elements)
            with
          | none => rw [hrec] at h; exact absurd h (by simp)
          | some pr =>
              obtain ⟨res2, offs2⟩ := pr
              rw [hrec] at h
              obtain ⟨rfl, rfl⟩ := Prod.mk.injEq _ _ _ _ ▸ (Option.some.inj h)
              obtain ⟨⟨n, hoffs⟩, hres, hmid, last, hlast, hstop⟩ := ih _ _ _ _ hrec
              have hoffs2ne : offs2 ≠ [] := by
                rw [hoffs]
                simp
              refine ⟨⟨n + 1, ?_⟩, ?_, ?_, ⟨last, ?_, hstop⟩⟩
              · rw [hoffs]
                exact range_map_shift off n
              · rw [hres, List.flatMap_cons, List.append_assoc]
              · intro o ho
                cases hoffs2 : offs2 with
                | nil => exact absurd hoffs2 hoffs2ne
                | cons b t =>
                    subst hoffs2
                    rw [List.dropLast_cons₂] at ho
                    rcases List.mem_cons.mp ho with rfl | hmem
                    · constructor
                      · intro hnil
                        rw [hnil] at hnonempty
                        simp at hnonempty
                      · omega
                    · exact hmid o hmem
              · cases hoffs2 : offs2 with
                | nil => exact absurd hoffs2 hoffs2ne
                | cons b t =>
                    subst hoffs2
                    rw [List.getLast?_cons_cons]
                    exact hlast

/-- C6: for every server and every terminating walk from offset 0, the
issued offsets increase from 0 in steps of the fixed page size 100, the
walk stops exactly when a page is empty or `offset + 100 >= total` (every
earlier page being non-empty with `offset + 100 < total`), and the result
is the concatenation of all received elements in arrival order without
deduplication; in particular over three pages of sizes 100, 100, 37 with
`total = 237` it returns exactly the 237 elements and stops after the
third page. -/
theorem c6_pagination :
    (∀ (pages : Nat → Page) (fuel : Nat) (res : List Json) (offs : List Nat),
      getPaginatedResults pages fuel 0 [] = some (res, offs) →
      offs = (List.range offs.length).map (fun i => i * 100)
      ∧ res = offs.flatMap (fun o => (pages o).elements)
      ∧ (∀ o ∈ offs.dropLast, (pages o).elements ≠ [] ∧ o + 100 < (pages o).total)
      ∧ (∃ last, offs.getLast? = some last ∧
          ((pages last).elements = [] ∨ (pages last).total ≤ last + 100)))
    ∧ getPaginatedResults pages237 10 0 [] = some (elems237, [0, 100, 200])
    ∧ elems237.length = 237 := by
  refine ⟨?_, rfl, rfl⟩
  intro pages fuel res offs h
  obtain ⟨⟨n, hoffs⟩, hres, hmid, hstop⟩ := getPaginatedResults_spec pages fuel 0 [] res offs h
  refine ⟨?_, by simpa using hres, hmid, hstop⟩
  rw [hoffs]
  simp only [List.length_map, List.length_range]
  apply List.map_congr_left
  intro i hi
  omega

/-- Witness for C6: applying the characterization to the three-page
scenario shows the 237 elements are exactly the concatenation of the three
served pages, the two non-final pages were full with `offset + 100 < 237`,
and the walk stopped at offset 200 where `200 + 100 >= 237`. -/
theorem c6_pagination_witness :
    elems237 = [0, 100, 200].flatMap (fun o => (pages237 o).elements)
    ∧ (∀ o ∈ ([0, 100, 200] : List Nat).dropLast,
        (pages237 o).elements ≠ [] ∧ o + 100 < (pages237 o).total)
    ∧ (∃ last, ([0, 100, 200] : List Nat).getLast? = some last ∧
        ((pages237 last).elements = [] ∨ (pages237 last).total ≤ last + 100)) := by
  obtain ⟨_, hres, hmid, hstop⟩ :=
    c6_pagination.1 pages237 10 elems237 [0, 100, 200] c6_pagination.2.1
  exact ⟨hres, hmid, hstop⟩

/-! ### C1 / C8 — optimistic-locking protocol -/

/-- The empty trace satisfies the fetch-then-patch discipline. -/
theorem lockOk_nil : lockProtocolOk [] := by
  intro i id u h
  simp at h

/-- A one-event trace with no PATCH satisfies the discipline. -/
theorem lockOk_single (e : Event) (h : ∀ id u, e ≠ Event.patchWp id u) :
    lockProtocolOk [e] := by
  intro i id u hi
  cases i with
  | zero => exact absurd (Option.some.inj hi) (h id u)
  | succ n => simp at hi

/-- Prefixing a non-PATCH event preserves the discipline. -/
theorem lockOk_cons (e : Event) (tr : List Event) (he : ∀ id u, e ≠ Event.patchWp id u)
    (ht : lockProtocolOk tr) : lockProtocolOk (e :: tr) := by
  intro i id u hi
  cases i with
  | zero =>
      rw [List.get?_cons_zero] at hi
      exact absurd (Option.some.inj hi) (he id u)
  | succ n =>
      rw [List.get?_cons_succ] at hi
      obtain ⟨j, resp, hj, hg, rest⟩ := ht n id u hi
      exact ⟨j + 1, resp, by omega, by rw [List.get?_cons_succ]; exact hg, rest⟩

/-- A GET followed by a PATCH whose payload starts with the `lockVersion`
read from that GET satisfies the discipline. -/
theorem lockOk_pair (id : Int) (kvs fields : List (String × Json))
    (hnn : pyDictGet kvs "lockVersion" ≠ Json.null) :
    lockProtocolOk [Event.getWpOk id (Json.obj kvs),
      Event.patchWp id (("lockVersion", pyDictGet kvs "lockVersion") :: fields)] := by
  intro i id' u hi
  cases i with
  | zero =>
      rw [List.get?_cons_zero] at hi
      exact Event.noConfusion (Option.some.inj hi)
  | succ n =>
      cases n with
      | zero =>
          rw [List.get?_cons_succ, List.get?_cons_zero] at hi
          have heq := Option.some.inj hi
          injection heq with h1 h2
          subst h1
          subst h2
          exact ⟨0, Json.obj kvs, by omega, rfl,
            pyDictGet kvs "lockVersion", hnn, rfl, rfl⟩
      | succ m => simp at hi

/-- A successful GET event is not a PATCH event. -/
theorem nonPatch_getWpOk (i : Int) (r : Json) :
    ∀ id u, Event.getWpOk i r ≠ Event.patchWp id u :=
  fun _ _ h => Event.noConfusion h

/-- A failed GET event is not a PATCH event. -/
theorem nonPatch_getWpErr (i : Int) :
    ∀ id u, Event.getWpErr i ≠ Event.patchWp id u :=
  fun _ _ h => Event.noConfusion h

/-- A user-lookup event is not a PATCH event. -/
theorem nonPatch_getUsers (email : String) :
    ∀ id u, Event.getUsers email ≠ Event.patchWp id u :=
  fun _ _ h => Event.noConfusion h

/-- C1: in both update operations — the general update tool and the
assign-by-email tool — every PATCH of the work package is preceded, within
the same operation, by a GET of that same work package whose response
established the non-null `lockVersion` included in the PATCH payload. -/
theorem c1_fetch_then_patch (env : Env) (wp : Int)
    (subject description start_date due_date : Option String)
    (assignee_id status_id : Option Int) (estimated_hours : Option Nat)
    (email : String) :
    lockProtocolOk (update_work_package env wp subject description start_date due_date
        assignee_id status_id estimated_hours).2
    ∧ lockProtocolOk (assign_work_package_by_email env wp email).2 := by
  constructor
  · unfold update_work_package
    split
    · exact lockOk_nil
    · split
      · exact lockOk_single _ (nonPatch_getWpErr wp)
      · split
        · dsimp only
          split
          · exact lockOk_single _ (nonPatch_getWpOk wp _)
          · next hnl =>
            split
            · exact lockOk_single _ (nonPatch_getWpOk wp _)
            · split
              · exact lockOk_single _ (nonPatch_getWpOk wp _)
              · split
                · apply lockOk_pair
                  intro h
                  exact hnl (by rw [h]; rfl)
                · apply lockOk_pair
                  intro h
                  exact hnl (by rw [h]; rfl)
        · exact lockOk_single _ (nonPatch_getWpOk wp _)
  · unfold assign_work_package_by_email
    split
    · exact lockOk_nil
    · split
      · exact lockOk_nil
      · split
        · exact lockOk_single _ (nonPatch_getUsers email)
        · split
          · exact lockOk_cons _ _ (nonPatch_getUsers email)
              (lockOk_single _ (nonPatch_getWpErr wp))
          · split
            · dsimp only
              split
              · exact lockOk_cons _ _ (nonPatch_getUsers email)
                  (lockOk_single _ (nonPatch_getWpOk wp _))
              · next hnl =>
                split
                · split
                  · apply lockOk_cons _ _ (nonPatch_getUsers email)
                    apply lockOk_pair
                    intro h
                    exact hnl (by rw [h]; rfl)
                  · apply lockOk_cons _ _ (nonPatch_getUsers email)
                    apply lockOk_pair
                    intro h
                    exact hnl (by rw [h]; rfl)
                · exact lockOk_cons _ _ (nonPatch_getUsers email)
                    (lockOk_single _ (nonPatch_getWpOk wp _))
            · exact lockOk_cons _ _ (nonPatch_getUsers email)
                (lockOk_single _ (nonPatch_getWpOk wp _))

/-- C8: when no update field beyond the version token is supplied, the
update tool never dispatches a PATCH (the payload containing only
`lockVersion` is never sent), and whenever the preliminary steps succeed
(valid id, successful GET, non-null token) the operation is rejected with
the `noUpdates` caller-facing validation error. -/
theorem c8_noop_update_rejected (env : Env) (wp : Int) :
    (∀ e ∈ (update_work_package env wp none none none none none none none).2,
        ∀ id u, e ≠ Event.patchWp id u)
    ∧ (∀ kvs, 0 < wp → env.getWp wp = .ok (Json.obj kvs) →
        (pyDictGet kvs "lockVersion").isNull = false →
        (update_work_package env wp none none none none none none none).1
          = UpdateResult.noUpdates) := by
  constructor
  · intro e he
    unfold update_work_package at he
    split at he
    · simp at he
    · split at he
      · simp only [List.mem_singleton] at he
        subst he
        exact nonPatch_getWpErr wp
      · split at he
        · dsimp only at he
          split at he
          · simp only [List.mem_singleton] at he
            subst he
            exact nonPatch_getWpOk wp _
          · split at he
            · simp only [List.mem_singleton] at he
              subst he
              exact nonPatch_getWpOk wp _
            · next fields heq =>
              split at he
              · simp only [List.mem_singleton] at he
                subst he
                exact nonPatch_getWpOk wp _
              · next hne =>
                have h1 : Except.ok fields
                    = Except.ok ([] : List (String × Json)) :=
                  heq.symm.trans rfl
                have h0 : fields = [] := Except.ok.inj h1
                subst h0
                exact absurd rfl hne
        · simp only [List.mem_singleton] at he
          subst he
          exact nonPatch_getWpOk wp _
  · intro kvs hwp hg hnl
    have hn0 : ¬ wp ≤ 0 := by omega
    simp [update_work_package, hn0, hg, hnl, buildUpdates, truthyOStr, truthyOInt]

/-- Witness for C8: against a service serving `lockVersion = 3`, the
all-absent update of work package 1 is rejected with the no-updates
validation error. -/
theorem c8_noop_update_rejected_witness :
    (update_work_package envLock 1 none none none none none none none).1
      = UpdateResult.noUpdates :=
  (c8_noop_update_rejected envLock 1).2 [("lockVersion", Json.num 3)]
    (by norm_num) rfl rfl
